import Mathlib

/-!
Verification development for the `winston-pg-nest` PostgreSQL logging
transport. The definitions below are a shallow embedding of the transport
implementation (`PostgresTransport`): its constructor, the `log` write path,
the `query` read path and the private `hydrateColumns` helper. Asynchronous
database effects are made explicit: each statement outcome is an input of
type `Except JsError _`, and the sequence of pool interactions performed by
a call is returned as an explicit event trace.

JavaScript conventions that matter are embedded explicitly:
- `undefined` is `Option.none`; a record field lookup yields `Option Json`;
- truthiness of an optional number (`if (options.limit)`) is
  `jsTruthyInt`: absent or zero is falsy;
- truthiness of an optional string (`if (options.timezone)`) treats the
  empty string as falsy;
- the nullish-coalescing operator `value ?? default` is `jsNullish`:
  it falls through on both `undefined` and `null`;
- `JSON.stringify` is `jsonStringify`: on `undefined` it returns
  `undefined`, otherwise the canonical JSON text of the value
  (`Json.render`).
-/

namespace WinstonPg

/-- SQL data-type tags of column definitions (spec §3 `ColumnDefinition`). -/
inductive DataType
  | STRING
  | INTEGER
  | SERIAL
  | JSON
  | TIMESTAMP
  | TIMESTAMPTZ
  | BOOLEAN
  deriving DecidableEq

/-- JSON-serializable JavaScript values (numbers restricted to integers). -/
inductive Json
  | null
  | bool (b : Bool)
  | num (n : Int)
  | str (s : String)
  | arr (elems : List Json)
  | obj (fields : List (String × Json))

/-- A single-quote character as a string (used by the timezone qualifier). -/
def apos : String := String.singleton (Char.ofNat 39)

/-- JSON string escaping for one character, as `JSON.stringify` performs it
on the common characters. -/
def escapeChar (c : Char) : String :=
  if c = '"' then "\\\""
  else if c = '\\' then "\\\\"
  else if c = '\n' then "\\n"
  else if c = '\t' then "\\t"
  else if c = '\r' then "\\r"
  else String.singleton c

/-- JSON string escaping, character by character. -/
def escapeString (s : String) : String :=
  String.join (s.data.map escapeChar)

mutual

/-- Canonical JSON text of a value, embedding `JSON.stringify` (no
whitespace, double-quoted escaped strings). -/
def Json.render : Json → String
  | .null => "null"
  | .bool true => "true"
  | .bool false => "false"
  | .num n => toString n
  | .str s => "\"" ++ escapeString s ++ "\""
  | .arr elems => "[" ++ Json.renderList elems ++ "]"
  | .obj fields => "\x7b" ++ Json.renderFields fields ++ "\x7d"

/-- Comma-separated rendering of array elements. -/
def Json.renderList : List Json → String
  | [] => ""
  | [x] => x.render
  | x :: y :: rest => x.render ++ "," ++ Json.renderList (y :: rest)

/-- Comma-separated rendering of object fields. -/
def Json.renderFields : List (String × Json) → String
  | [] => ""
  | [f] => "\"" ++ escapeString f.1 ++ "\":" ++ f.2.render
  | f :: g :: rest =>
      "\"" ++ escapeString f.1 ++ "\":" ++ f.2.render ++ "," ++
        Json.renderFields (g :: rest)

end

/-- `JSON.stringify` lifted to a possibly-undefined argument: stringifying
`undefined` yields `undefined`, never an exception. -/
def jsonStringify : Option Json → Option String
  | none => none
  | some v => some (Json.render v)

/-- The nullish-coalescing operator `a ?? b`: `b` when `a` is `undefined`
or `null`, otherwise `a`. -/
def jsNullish : Option Json → Option Json → Option Json
  | none, b => b
  | some .null, b => b
  | some v, _ => some v

/-- JavaScript truthiness of an optional number: absent and `0` are falsy. -/
def jsTruthyInt : Option Int → Bool
  | none => false
  | some n => n != 0

/-- A log record: an ordered field map from names to values (the shallow
embedding of the duck-typed `args` object; a missing key is `undefined`). -/
def Record := List (String × Json)

/-- Field lookup on a record, `args[name]`; `none` is `undefined`. -/
def Record.get (r : Record) (name : String) : Option Json :=
  (r.find? (fun p => p.1 == name)).map (fun p => p.2)

/-- A column definition: name, SQL data type, optional default
(`PostgresColumnDefinition` / spec §3). -/
structure ColumnDef where
  name : String
  dataType : DataType
  defaultValue : Option Json := none

/-- A column together with the value bound to it by hydration (the result
of `column.value(...)` in the source); `value = none` is `undefined`. -/
structure HydratedColumn where
  name : String
  dataType : DataType
  value : Option Json

/-- The timezone qualifier appended to the `NOW()` expression: the source
builds `\x60 at time zone ${tz}\x60` when `this.timezone` is truthy, else
the empty string. -/
def tzQualifier : Option String → String
  | some t => if t = "" then "" else " at time zone " ++ apos ++ t ++ apos
  | none => ""

/-- One step of `hydrateColumns` (the body of its `columns.map`): a JSON
column gets the stringified looked-up value, a timestamp column gets the
database-side current-time expression, every other column gets the
looked-up value nullish-coalesced with the declared default. -/
def hydrateColumn (timezone : Option String) (args : Record)
    (column : ColumnDef) : HydratedColumn :=
  let value := args.get column.name
  if column.dataType = DataType.JSON then
    ⟨column.name, column.dataType, (jsonStringify value).map Json.str⟩
  else if column.dataType ∈ [DataType.TIMESTAMP, DataType.TIMESTAMPTZ] then
    ⟨column.name, column.dataType,
      some (Json.str ("NOW()" ++ tzQualifier timezone))⟩
  else
    ⟨column.name, column.dataType, jsNullish value column.defaultValue⟩

/-- `PostgresTransport.hydrateColumns`: map every declared column to its
hydrated value. -/
def hydrateColumns (timezone : Option String) (args : Record)
    (columns : List ColumnDef) : List HydratedColumn :=
  columns.map (hydrateColumn timezone args)

/-- A JavaScript `Error` as the database driver produces it; `stack` is the
string the source reads as `e.stack`. -/
structure JsError where
  message : String
  stack : String
  deriving DecidableEq

/-- A value delivered on a caller-visible error channel: either the error
object itself or a string (such as its stack trace). -/
inductive ChannelValue
  | errVal (e : JsError)
  | strVal (s : String)
  deriving DecidableEq

/-- The argument the write completion callback is invoked with:
`callback(null, true)` on success, `callback(v)` on failure. -/
inductive CallbackArg
  | success
  | failure (v : ChannelValue)
  deriving DecidableEq

/-- The payload of an emitted event: the original record for `logged`, an
error text for `error`. -/
inductive EventPayload
  | record (r : Record)
  | errText (s : String)

/-- The kind of SQL statement issued on a pooled connection. -/
inductive StmtKind
  | createTable
  | insert
  | select
  | count
  deriving DecidableEq

/-- One observable interaction with the connection pool. -/
inductive DbEvent
  | acquire
  | statement (k : StmtKind)
  | release
  deriving DecidableEq

/-- Everything observable about one `log` call: the pool interaction trace,
the emitted events, the callback invocation, and the column list the insert
statement was built from. -/
structure LogOutcome where
  trace : List DbEvent
  events : List (String × EventPayload)
  callback : CallbackArg
  insertColumns : List HydratedColumn

/-- `PostgresTransport.log`: short-circuit when silent; otherwise hydrate
the record, build the insert from the non-SERIAL hydrated columns, and run
it on a pooled connection, releasing the connection and signalling the
outcome on both paths. `insertRes` is the outcome of the insert statement. -/
def log (silent : Bool) (timezone : Option String)
    (tableColumns : List ColumnDef) (args : Record)
    (insertRes : Except JsError Unit) : LogOutcome :=
  if silent then
    ⟨[], [], .success, []⟩
  else
    let columns := hydrateColumns timezone args tableColumns
    let insertCols := columns.filter (fun c => c.dataType != DataType.SERIAL)
    match insertRes with
    | .ok _ =>
        ⟨[.acquire, .statement .insert, .release],
          [("logged", .record args)], .success, insertCols⟩
    | .error e =>
        ⟨[.acquire, .statement .insert, .release],
          [("error", .errText e.stack)], .failure (.strVal e.stack),
          insertCols⟩

/-- Filter operators of a query request (spec §3 `FilterClause`). -/
inductive FilterOp
  | eq
  | ne
  | gt
  | gte
  | lt
  | lte
  | like
  | isIn
  | between
  | notBetween
  deriving DecidableEq

/-- One filter clause: field, operator, value (a two-element list for
`between` / `notBetween`, a single-element list otherwise). -/
structure FilterClause where
  field : String
  op : FilterOp
  value : List Json

/-- A translated predicate against a named column. -/
inductive Predicate
  | compare (field : String) (op : FilterOp) (v : Json)
  | betweenBounds (field : String) (negated : Bool) (lo hi : Json)

/-- A read request (`QueryOptions`, whose declaration file is not under
src/; shape taken from its uses in `query` and spec §3 `QueryRequest`). -/
structure QueryOptions where
  fields : Option (List String) := none
  whereClauses : Option (List FilterClause) := none
  order : Option (List (String × String)) := none
  limit : Option Int := none
  page : Option Int := none

/-- The built SELECT statement: projected fields, conjoined predicates,
order pairs (directions lower-cased), and the offset/limit clause when
pagination applies. -/
structure BuiltQuery where
  fields : List String
  whereP : List Predicate
  order : List (String × String)
  offsetLimit : Option (Int × Int)

/-- The built COUNT statement mirrors only the filter predicate. -/
structure BuiltCount where
  whereP : List Predicate

/-- Translation of one filter clause (the body of `options.where.map`):
`between` / `notBetween` take the two bounds from the value pair, every
other operator takes the single value. -/
def translateClause (opt : FilterClause) : Predicate :=
  if opt.op = FilterOp.between ∨ opt.op = FilterOp.notBetween then
    .betweenBounds opt.field (opt.op = FilterOp.notBetween)
      (opt.value.headD .null) ((opt.value.drop 1).headD .null)
  else
    .compare opt.field opt.op (opt.value.headD .null)

/-- Statement construction of `PostgresTransport.query` (source lines
126-155): default the projection to all declared column names, translate
the filter onto both statements, translate the order, and, when `limit` is
truthy, apply `offset = limit * page` (with falsy `page` giving 0) and the
limit. -/
def buildQueries (tableColumns : List ColumnDef) (options : QueryOptions) :
    BuiltQuery × BuiltCount :=
  let fields := match options.fields with
    | some fs => fs
    | none => tableColumns.map (fun c => c.name)
  let whereP := match options.whereClauses with
    | some cs => cs.map translateClause
    | none => []
  let order := match options.order with
    | some os => os.map (fun kv => (kv.1, kv.2.toLower))
    | none => []
  if jsTruthyInt options.limit then
    let l := options.limit.getD 0
    let offset : Int := match options.page with
      | some p => if p != 0 then l * p else 0
      | none => 0
    (⟨fields, whereP, order, some (offset, l)⟩, ⟨whereP⟩)
  else
    (⟨fields, whereP, order, none⟩, ⟨whereP⟩)

/-- The page value assembled by `PaginatedDataDto` (its class file is not
under src/; shape taken from its construction in `query` and spec §3
`PageResult`): rows, row count of this page, limit, page, total. -/
structure PaginatedData where
  data : List Record
  rowCount : Int
  limit : Int
  page : Option Int
  total : Int

/-- How one `query` call settles: resolved plain rows, resolved page, or
rejected with an error string. -/
inductive QueryResult
  | rows (rs : List Record)
  | page (p : PaginatedData)
  | rejected (s : String)

/-- `PostgresTransport.query` (source lines 157-183): run the built select
on a pooled connection. On select failure: release once and reject with
`e.stack`. On select success: release, then, when `limit` is truthy, issue
the count statement on the already-released client; if the count fails,
the surrounding catch releases the client a second time and rejects with
`e.stack`; if it succeeds, resolve a page whose total is the first count
row or 0. When `limit` is falsy, resolve the plain rows. `selectRes` is
the select outcome (rows and rowCount), `countRes` the count outcome (the
`total` column of its rows). -/
def query (tableColumns : List ColumnDef) (options : QueryOptions)
    (selectRes : Except JsError (List Record × Int))
    (countRes : Except JsError (List Int)) : List DbEvent × QueryResult :=
  let _built := buildQueries tableColumns options
  match selectRes with
  | .error e =>
      ([.acquire, .statement .select, .release], .rejected e.stack)
  | .ok (rows, rowCount) =>
      if jsTruthyInt options.limit then
        match countRes with
        | .error e =>
            ([.acquire, .statement .select, .release, .statement .count,
                .release],
              .rejected e.stack)
        | .ok totals =>
            ([.acquire, .statement .select, .release, .statement .count],
              .page ⟨rows, rowCount, options.limit.getD 0, options.page,
                totals.headD 0⟩)
      else
        ([.acquire, .statement .select, .release], .rows rows)

/-- Modelled from the spec: the `postgres.constants` module is not under
src/. Spec §6 says defaults are provided for the minimum log level, the
schema name, the table name, the pool size and the column definitions, and
spec §4.1 says the default column set is minimally an auto-incrementing
identifier, a level field, a message field, a JSON metadata field and a
creation timestamp. The concrete strings below stand in for the missing
constant values; no claim depends on their exact text. -/
def PostgresConstants.DEFAULT_LEVEL : String := "info"

/-- Modelled from the spec: default schema name (spec §6). -/
def PostgresConstants.DEFAULT_SCHEMA : String := "public"

/-- Modelled from the spec: default table name (spec §6). -/
def PostgresConstants.DEFAULT_TABLE_NAME : String := "winston_logs"

/-- Modelled from the spec: default pool size (spec §6). -/
def PostgresConstants.DEFAULT_POOL : Int := 10

/-- Modelled from the spec: default column set (spec §4.1). -/
def PostgresConstants.DEFAULT_TABLE_COLUMNS : List ColumnDef :=
  [⟨"id", .SERIAL, none⟩,
   ⟨"level", .STRING, none⟩,
   ⟨"message", .STRING, none⟩,
   ⟨"meta", .JSON, none⟩,
   ⟨"timestamp", .TIMESTAMPTZ, none⟩]

/-- The recognized construction options (`PostgresOptions`), with the
inherited stream options that the constructor reads (`level`, `silent`). -/
structure PostgresOptions where
  connectionString : String
  maxPool : Option Int := none
  schema : Option String := none
  tableName : Option String := none
  tableColumns : Option (List ColumnDef) := none
  timezone : Option String := none
  level : Option String := none
  silent : Option Bool := none

/-- The configuration state a constructed transport holds. -/
structure Transport where
  level : String
  silent : Bool
  schema : String
  tableName : String
  tableColumns : List ColumnDef
  timezone : Option String

/-- JavaScript `a || d` on an optional string: absent and empty are falsy. -/
def jsOrStr (a : Option String) (d : String) : String :=
  match a with
  | some s => if s = "" then d else s
  | none => d

/-- The field assignments of the constructor (source lines 62-71): each
option defaulted with `||`, the timezone kept only when truthy. An array
option is truthy whenever present, so a supplied empty column list is
kept. -/
def mkTransport (options : PostgresOptions) : Transport :=
  { level := jsOrStr options.level PostgresConstants.DEFAULT_LEVEL
    silent := options.silent.getD false
    schema := jsOrStr options.schema PostgresConstants.DEFAULT_SCHEMA
    tableName := jsOrStr options.tableName PostgresConstants.DEFAULT_TABLE_NAME
    tableColumns := options.tableColumns.getD
      PostgresConstants.DEFAULT_TABLE_COLUMNS
    timezone := match options.timezone with
      | some t => if t = "" then none else some t
      | none => none }

/-- How the floating construction-time promise chain settles. -/
inductive AsyncOutcome
  | completed
  | unhandledRejection (v : ChannelValue)
  deriving DecidableEq

/-- The asynchronous part of construction: its pool interaction trace and
how its promise chain settles. -/
structure CtorAsync where
  trace : List DbEvent
  outcome : AsyncOutcome

/-- The pool interactions of the construction-time create-table chain: one
acquisition, the create statement, one release (the release happens in the
`.then` on success and in the `.catch` on failure). -/
def ctorTrace : List DbEvent :=
  [.acquire, .statement .createTable, .release]

/-- `PostgresTransport`s constructor (source lines 55-97): throw
synchronously when `connectionString` is falsy; otherwise build the
transport state and fire the create-table statement inside an unawaited
promise chain. The synchronous result — all the construction caller can
observe — is the `Except`: `.error` only for the missing connection
string. A create-table failure releases the client and re-throws `e.stack`
inside the chain, which has no further handler, so it becomes an unhandled
rejection; the constructor has already returned the transport. `createRes`
is the outcome of the create-table statement. -/
def construct (options : PostgresOptions) (createRes : Except JsError Unit) :
    Except String (Transport × CtorAsync) :=
  if options.connectionString = "" then
    .error "Postgres transport requires \"connectionString\"."
  else
    let async : CtorAsync := match createRes with
      | .ok _ => ⟨ctorTrace, .completed⟩
      | .error e => ⟨ctorTrace, .unhandledRejection (.strVal e.stack)⟩
    .ok (mkTransport options, async)

/-! ## Helper lemmas -/

theorem str_append_assoc (a b c : String) : a ++ b ++ c = a ++ (b ++ c) := by
  apply String.ext
  show (a ++ b ++ c).data = (a ++ (b ++ c)).data
  simp

theorem hydrateColumn_name (tz : Option String) (args : Record)
    (c : ColumnDef) : (hydrateColumn tz args c).name = c.name := by
  unfold hydrateColumn
  by_cases h1 : c.dataType = DataType.JSON
  · simp [h1]
  · by_cases h2 : c.dataType ∈ [DataType.TIMESTAMP, DataType.TIMESTAMPTZ] <;>
      simp [h1, h2]

theorem hydrateColumn_dataType (tz : Option String) (args : Record)
    (c : ColumnDef) : (hydrateColumn tz args c).dataType = c.dataType := by
  unfold hydrateColumn
  by_cases h1 : c.dataType = DataType.JSON
  · simp [h1]
  · by_cases h2 : c.dataType ∈ [DataType.TIMESTAMP, DataType.TIMESTAMPTZ] <;>
      simp [h1, h2]

theorem hydrateColumns_names (tz : Option String) (args : Record)
    (cols : List ColumnDef) :
    (hydrateColumns tz args cols).map HydratedColumn.name
      = cols.map ColumnDef.name := by
  induction cols with
  | nil => rfl
  | cons c cs ih =>
      simp only [hydrateColumns, List.map_cons] at ih ⊢
      rw [hydrateColumn_name, ih]

theorem insertCols_names (tz : Option String) (args : Record)
    (cols : List ColumnDef) :
    ((hydrateColumns tz args cols).filter
        (fun c => c.dataType != DataType.SERIAL)).map HydratedColumn.name
      = (cols.filter (fun c => c.dataType != DataType.SERIAL)).map
          ColumnDef.name := by
  induction cols with
  | nil => rfl
  | cons c cs ih =>
      simp only [hydrateColumns, List.map_cons, List.filter_cons] at ih ⊢
      rw [hydrateColumn_dataType]
      by_cases h : c.dataType = DataType.SERIAL
      · simp [h, ih]
      · simp [h, ih, hydrateColumn_name]

/-! ## Claim theorems -/

/-- C9: for every input record, a write call on a transport in the silent
configuration state performs zero connection acquisitions, emits no event,
builds no insert, and invokes its completion callback with success; the
outcome record being literally empty shows the call has no effect on any
state. -/
theorem c9_silent_write_is_noop (tz : Option String) (cols : List ColumnDef)
    (args : Record) (insertRes : Except JsError Unit) :
    log true tz cols args insertRes
        = ⟨[], [], CallbackArg.success, []⟩
      ∧ (log true tz cols args insertRes).trace.count DbEvent.acquire = 0 :=
  ⟨rfl, rfl⟩

/-- C5: for every read request with no limit, the built select carries no
offset/limit clause, the call issues only the select statement (no count
statement appears in the trace), and it resolves to the plain row
sequence, not a page. -/
theorem c5_no_limit_unpaginated (cols : List ColumnDef)
    (options : QueryOptions) (rows : List Record) (n : Int)
    (countRes : Except JsError (List Int))
    (h : options.limit = none) :
    (buildQueries cols options).1.offsetLimit = none
      ∧ (query cols options (.ok (rows, n)) countRes).1
          = [DbEvent.acquire, DbEvent.statement StmtKind.select,
              DbEvent.release]
      ∧ (query cols options (.ok (rows, n)) countRes).2
          = QueryResult.rows rows := by
  refine ⟨?_, ?_, ?_⟩ <;> simp [buildQueries, query, h, jsTruthyInt]

/-- C5 witness: a concrete unlimited read issues only the select and
resolves to plain rows. -/
theorem c5_no_limit_unpaginated_witness :
    (buildQueries PostgresConstants.DEFAULT_TABLE_COLUMNS {}).1.offsetLimit
        = none
      ∧ (query PostgresConstants.DEFAULT_TABLE_COLUMNS {}
          (.ok ([[("message", Json.str "hi")]], 1)) (.ok [])).1
          = [DbEvent.acquire, DbEvent.statement StmtKind.select,
              DbEvent.release]
      ∧ (query PostgresConstants.DEFAULT_TABLE_COLUMNS {}
          (.ok ([[("message", Json.str "hi")]], 1)) (.ok [])).2
          = QueryResult.rows [[("message", Json.str "hi")]] :=
  c5_no_limit_unpaginated PostgresConstants.DEFAULT_TABLE_COLUMNS {}
    [[("message", Json.str "hi")]] 1 (.ok []) rfl

/-- C10: a read request with limit equal to 0 is treated as unpaginated,
because 0 is falsy: no offset/limit clause, no count statement, and the
call resolves to plain rows even though a limit value was supplied. -/
theorem c10_zero_limit_unpaginated (cols : List ColumnDef)
    (options : QueryOptions) (rows : List Record) (n : Int)
    (countRes : Except JsError (List Int))
    (h : options.limit = some 0) :
    (buildQueries cols options).1.offsetLimit = none
      ∧ (query cols options (.ok (rows, n)) countRes).1
          = [DbEvent.acquire, DbEvent.statement StmtKind.select,
              DbEvent.release]
      ∧ (query cols options (.ok (rows, n)) countRes).2
          = QueryResult.rows rows := by
  refine ⟨?_, ?_, ?_⟩ <;> simp [buildQueries, query, h, jsTruthyInt]

/-- C10 witness: a concrete read with limit 0 behaves as unpaginated. -/
theorem c10_zero_limit_unpaginated_witness :
    (buildQueries PostgresConstants.DEFAULT_TABLE_COLUMNS
        { limit := some 0, page := some 3 }).1.offsetLimit = none
      ∧ (query PostgresConstants.DEFAULT_TABLE_COLUMNS
          { limit := some 0, page := some 3 } (.ok ([], 0)) (.ok [7])).1
          = [DbEvent.acquire, DbEvent.statement StmtKind.select,
              DbEvent.release]
      ∧ (query PostgresConstants.DEFAULT_TABLE_COLUMNS
          { limit := some 0, page := some 3 } (.ok ([], 0)) (.ok [7])).2
          = QueryResult.rows [] :=
  c10_zero_limit_unpaginated PostgresConstants.DEFAULT_TABLE_COLUMNS
    { limit := some 0, page := some 3 } [] 0 (.ok [7]) rfl

/-- C4: for every read request whose limit is set (a nonzero value, the
paginated path), the computed row offset equals limit times the page,
where an unspecified page defaults to 0. -/
theorem c4_offset_is_limit_times_page (cols : List ColumnDef)
    (options : QueryOptions) (l : Int)
    (h1 : options.limit = some l) (h2 : ¬ l = 0) :
    (buildQueries cols options).1.offsetLimit
      = some (l * (options.page.getD 0), l) := by
  cases hp : options.page with
  | none => simp [buildQueries, h1, h2, jsTruthyInt, hp]
  | some p =>
      by_cases hz : p = 0
      · simp [buildQueries, h1, h2, jsTruthyInt, hp, hz]
      · simp [buildQueries, h1, h2, jsTruthyInt, hp, hz]

/-- C4 witness: limit 10 with page 2 yields offset exactly 20. -/
theorem c4_offset_is_limit_times_page_witness :
    (buildQueries PostgresConstants.DEFAULT_TABLE_COLUMNS
        { limit := some 10, page := some 2 }).1.offsetLimit
      = some (20, 10) := by
  simpa using c4_offset_is_limit_times_page
    PostgresConstants.DEFAULT_TABLE_COLUMNS
    { limit := some 10, page := some 2 } 10 rfl (by decide)

/-- C6: a timestamp-typed column (TIMESTAMP or TIMESTAMPTZ) hydrates to a
database-side current-time expression: the value is the fixed string
`NOW()` plus the timezone qualifier, it does not depend on the record at
all (so it is never the caller-supplied value), the configured timezone
appears verbatim inside the expression, and with no configured timezone
(absent, or the falsy empty string) the expression is exactly `NOW()`,
with no timezone qualifier. -/
theorem c6_timestamp_now_expression (tz : Option String) (args : Record)
    (column : ColumnDef)
    (h : column.dataType = DataType.TIMESTAMP
        ∨ column.dataType = DataType.TIMESTAMPTZ) :
    (hydrateColumn tz args column).value
        = some (Json.str ("NOW()" ++ tzQualifier tz))
      ∧ (∀ args2 : Record,
          hydrateColumn tz args2 column = hydrateColumn tz args column)
      ∧ (∀ t, tz = some t → ¬ t = "" →
          ∃ pre post, "NOW()" ++ tzQualifier tz = pre ++ t ++ post)
      ∧ ((tz = none ∨ tz = some "") → "NOW()" ++ tzQualifier tz = "NOW()") := by
  have hj : ¬ column.dataType = DataType.JSON := by
    rcases h with h | h <;> simp [h]
  have hm : column.dataType ∈ [DataType.TIMESTAMP, DataType.TIMESTAMPTZ] := by
    rcases h with h | h <;> simp [h]
  refine ⟨?_, ?_, ?_, ?_⟩
  · simp [hydrateColumn, hj, hm]
  · intro args2
    simp [hydrateColumn, hj, hm]
  · intro t ht hne
    subst ht
    refine ⟨"NOW()" ++ (" at time zone " ++ apos), apos, ?_⟩
    simp [tzQualifier, hne, str_append_assoc]
  · rintro (h4 | h4) <;> subst h4 <;> simp [tzQualifier]

/-- C6 witness: with timezone `utc+2` configured, a TIMESTAMPTZ column for
which the caller supplied a value hydrates to the current-time expression
carrying `utc+2` verbatim, not to the supplied value. -/
theorem c6_timestamp_now_expression_witness :
    (hydrateColumn (some "utc+2")
        [("timestamp", Json.str "2020-01-01")]
        ⟨"timestamp", DataType.TIMESTAMPTZ, none⟩).value
      = some (Json.str ("NOW() at time zone " ++ apos ++ "utc+2" ++ apos)) := by
  have h := c6_timestamp_now_expression (some "utc+2")
    [("timestamp", Json.str "2020-01-01")]
    ⟨"timestamp", DataType.TIMESTAMPTZ, none⟩ (Or.inr rfl)
  simpa [tzQualifier, str_append_assoc] using h.1

/-- C7: a JSON-typed column hydrates to the canonical JSON text
(`Json.render`, the embedding of `JSON.stringify`) of the looked-up value,
for every JSON-serializable value including null, nested objects and
arrays; when the field is absent the lookup is `undefined`,
`JSON.stringify` returns `undefined` without throwing, and the hydrated
value is `undefined` — hydration is total either way. -/
theorem c7_json_column_stringified (tz : Option String) (args : Record)
    (column : ColumnDef) (h : column.dataType = DataType.JSON) :
    (∀ v, args.get column.name = some v →
        (hydrateColumn tz args column).value
          = some (Json.str (Json.render v)))
      ∧ (args.get column.name = none →
          (hydrateColumn tz args column).value = none) := by
  constructor
  · intro v hv
    simp [hydrateColumn, h, hv, jsonStringify]
  · intro hv
    simp [hydrateColumn, h, hv, jsonStringify]

/-- C7 witness: a nested object (containing null and an array) is
serialized to its JSON text, and an absent field hydrates to `undefined`
without any failure. -/
theorem c7_json_column_stringified_witness :
    (hydrateColumn none
        [("meta", Json.obj [("a", Json.arr [Json.null, Json.num 1])])]
        ⟨"meta", DataType.JSON, none⟩).value
      = some (Json.str "\x7b\"a\":[null,1]\x7d")
    ∧ (hydrateColumn none [] ⟨"meta", DataType.JSON, none⟩).value = none :=
  ⟨(c7_json_column_stringified none
      [("meta", Json.obj [("a", Json.arr [Json.null, Json.num 1])])]
      ⟨"meta", DataType.JSON, none⟩ rfl).1
      (Json.obj [("a", Json.arr [Json.null, Json.num 1])]) rfl,
    (c7_json_column_stringified none [] ⟨"meta", DataType.JSON, none⟩
      rfl).2 rfl⟩

/-- C8: hydration produces exactly one entry per declared column, in
declared order (the hydrated names are exactly the declared names); the
column list the insert statement is built from is the declared non-SERIAL
columns in order, and every column in it has a non-SERIAL data type. -/
theorem c8_hydrate_shape_and_serial_excluded (tz : Option String)
    (args : Record) (cols : List ColumnDef)
    (insertRes : Except JsError Unit) :
    (hydrateColumns tz args cols).map HydratedColumn.name
        = cols.map ColumnDef.name
      ∧ (log false tz cols args insertRes).insertColumns.map
            HydratedColumn.name
          = (cols.filter (fun c => c.dataType != DataType.SERIAL)).map
              ColumnDef.name
      ∧ (log false tz cols args insertRes).insertColumns.all
          (fun c => c.dataType != DataType.SERIAL) = true := by
  have hcols : (log false tz cols args insertRes).insertColumns
      = (hydrateColumns tz args cols).filter
          (fun c => c.dataType != DataType.SERIAL) := by
    cases insertRes <;> simp [log]
  refine ⟨hydrateColumns_names tz args cols, ?_, ?_⟩
  · rw [hcols]
    exact insertCols_names tz args cols
  · rw [hcols, List.all_eq_true]
    intro c hc
    exact (List.mem_filter.mp hc).2

/-- C1: evaluating the read path on a paginated request shows the claim
fails on the code. On the paginated success path the connection is
released before the count statement is issued (the release event precedes
the count event in the trace), so the count does not run within the
lifetime of the acquisition; and when the count statement fails, the
surrounding catch releases the same connection a second time: two release
events for one acquisition. -/
theorem c1_paginated_release_before_count_and_double_release :
    (query PostgresConstants.DEFAULT_TABLE_COLUMNS
        { limit := some 5, page := some 0 } (.ok ([], 0)) (.ok [12])).1
      = [DbEvent.acquire, DbEvent.statement StmtKind.select,
          DbEvent.release, DbEvent.statement StmtKind.count]
    ∧ (query PostgresConstants.DEFAULT_TABLE_COLUMNS
        { limit := some 5, page := some 0 } (.ok ([], 0))
        (.error ⟨"count failed", "Error: count failed"⟩)).1
      = [DbEvent.acquire, DbEvent.statement StmtKind.select,
          DbEvent.release, DbEvent.statement StmtKind.count,
          DbEvent.release]
    ∧ ((query PostgresConstants.DEFAULT_TABLE_COLUMNS
        { limit := some 5, page := some 0 } (.ok ([], 0))
        (.error ⟨"count failed", "Error: count failed"⟩)).1.count
          DbEvent.release = 2) :=
  ⟨rfl, rfl, rfl⟩

/-- C2 counterexample: with a valid connection string and a failing
create-table statement, the construction caller still observes a
successful construction (`isOk = true`): the failure is not propagated to
the construction caller, contradicting the claim. -/
theorem c2_ctor_error_reaches_caller_counterexample :
    (construct { connectionString := "postgres://localhost:5432/logs" }
        (.error ⟨"create failed", "Error: create table failed"⟩)).isOk
      = true := rfl

/-- C2 amended: when the construction-time table creation fails, the
borrowed connection is still released exactly once, but the constructor
has already returned the transport to the caller; the re-thrown error
stack surfaces as an unhandled rejection of the floating promise chain,
not as a construction failure. -/
theorem c2_ctor_error_unhandled_rejection (options : PostgresOptions)
    (e : JsError) (h : ¬ options.connectionString = "") :
    construct options (.error e)
        = .ok (mkTransport options,
            ⟨ctorTrace, AsyncOutcome.unhandledRejection
              (ChannelValue.strVal e.stack)⟩)
      ∧ ctorTrace.count DbEvent.release = 1 := by
  constructor
  · unfold construct
    rw [if_neg h]
  · rfl

/-- C2 witness: a concrete failing construction releases the connection
once and ends in an unhandled rejection carrying the error stack. -/
theorem c2_ctor_error_unhandled_rejection_witness :
    construct { connectionString := "postgres://localhost:5432/logs" }
        (.error ⟨"create failed", "Error: create table failed"⟩)
        = .ok (mkTransport
            { connectionString := "postgres://localhost:5432/logs" },
            ⟨ctorTrace, AsyncOutcome.unhandledRejection
              (ChannelValue.strVal "Error: create table failed")⟩)
      ∧ ctorTrace.count DbEvent.release = 1 :=
  c2_ctor_error_unhandled_rejection
    { connectionString := "postgres://localhost:5432/logs" }
    ⟨"create failed", "Error: create table failed"⟩ (by decide)

/-- C3 counterexample: on a failing insert, the write callback is invoked
with the stack string of the error, not with the error value itself, so
the error value is not passed through unmodified. -/
theorem c3_error_value_unmodified_counterexample :
    (log false none PostgresConstants.DEFAULT_TABLE_COLUMNS []
        (.error ⟨"boom", "Error: boom"⟩)).callback
      ≠ CallbackArg.failure (ChannelValue.errVal ⟨"boom", "Error: boom"⟩) := by
  decide

/-- C3 amended: every database-layer error is passed through without retry
or suppression, but as its stack string: the write callback receives the
stack, the emitted error event payload is the stack, exactly one insert
attempt is made, and a failing select or count rejects the read call with
the stack. -/
theorem c3_errors_passed_as_stack (e : JsError) (tz : Option String)
    (cols : List ColumnDef) (args : Record) (options : QueryOptions)
    (countRes : Except JsError (List Int)) (rows : List Record) (n : Int) :
    (log false tz cols args (.error e)).callback
        = CallbackArg.failure (ChannelValue.strVal e.stack)
      ∧ (log false tz cols args (.error e)).events
          = [("error", EventPayload.errText e.stack)]
      ∧ (log false tz cols args (.error e)).trace
          = [DbEvent.acquire, DbEvent.statement StmtKind.insert,
              DbEvent.release]
      ∧ (query cols options (.error e) countRes).2
          = QueryResult.rejected e.stack
      ∧ (query cols { options with limit := some 5 } (.ok (rows, n))
            (.error e)).2
          = QueryResult.rejected e.stack := by
  refine ⟨rfl, rfl, rfl, rfl, ?_⟩
  simp [query, jsTruthyInt]

end WinstonPg
